import Mathlib

/-!
Verification of the agent orchestration core of the medi-minds backend.

The definitions below are a shallow embedding of the Python source:

- `Message`, `add_messages`   — the conversation model of
  backend/langgraph_agent/states/chatbotState.py (the langgraph
  add_messages reducer declared there as the messages channel);
- `tool_loop`, `mcp_chatbot_response`, `run_turn` — the tool-call
  resolution loop of MCPChatbotNode.process in
  backend/langgraph_agent/nodes/mcp_chatbot_node.py;
- `retrieve_medical_context`, `format_rag_context` — the retrieval
  augmentation unit of RAGIntegrationNode in
  backend/langgraph_agent/nodes/rag_integration_node.py;
- `parse_mood`, `detect_mood`, `mood_node_process` — the mood inference
  unit of MoodDetectionNode in
  backend/langgraph_agent/nodes/mood_detection_node.py, together with the
  mood store semantics of
  backend/langgraph_agent/mcps/local_servers/health_data_tool.py;
- `setup_graph` — GraphBuilder.setup_graph of
  backend/langgraph_agent/graphs/graph_builder.py.

External providers (the LLM, the tool executor, the semantic retriever)
are modelled as function parameters; distances are modelled as exact
rationals.
-/

/-- Role of a message, mirroring the langchain message classes used in the
source (SystemMessage, HumanMessage, AIMessage, ToolMessage). -/
inductive Role where
  | system
  | human
  | assistant
  | tool
deriving DecidableEq, Repr

/-- Requested capability invocation carried on an assistant message
(langchain ToolCall: name, args, id). The argument payload is kept as its
raw textual representation; the loop's control flow never inspects it. -/
structure ToolCall where
  name : String
  args : String
  callId : String
deriving DecidableEq, Repr

/-- Canonical message value: role, textual content, requested tool calls
and an optional message id (langchain assigns ids; the add_messages
reducer matches messages by id). -/
structure Message where
  role : Role
  content : String
  toolCalls : List ToolCall := []
  msgId : Option Nat := none
deriving DecidableEq, Repr

/-- Builds an AIMessage with plain content, as AIMessage(content=...) does
in mcp_chatbot_node.py lines 84-90: such a message carries no tool calls
and no preassigned id. -/
def mkAIMessage (content : String) : Message :=
  { role := Role.assistant, content := content }

/-- Builds a SystemMessage with the given content. -/
def mkSystemMessage (content : String) : Message :=
  { role := Role.system, content := content }

/-- Builds a HumanMessage with the given content. -/
def mkHumanMessage (content : String) : Message :=
  { role := Role.human, content := content }

/-- Upserts one message into a message list, following the langgraph
add_messages reducer declared as the messages channel in
chatbotState.py: a message whose id matches an existing message replaces
it in place; any other message is appended (messages without an id are
assigned fresh ids by the reducer and therefore append). -/
def upsert_message (acc : List Message) (m : Message) : List Message :=
  match m.msgId with
  | none => acc ++ [m]
  | some i =>
      if acc.any (fun x => x.msgId = some i) then
        acc.map (fun x => if x.msgId = some i then m else x)
      else
        acc ++ [m]

/-- Models the add_messages reducer of langgraph, declared in
chatbotState.py as the merge rule of the messages channel: each message
of the right list is upserted into the left list in order. -/
def add_messages (left right : List Message) : List Message :=
  right.foldl upsert_message left

/-- Raw reply shape of the completion provider, before normalization:
mcp_chatbot_node.py lines 82-90 distinguish an AIMessage, an object with
content and type attributes, a dict with a content key, a plain string,
and anything else (stringified). An assistant-shaped reply carries its
content, tool calls and optional id. -/
inductive RawReply where
  | aiMsg (content : String) (toolCalls : List ToolCall) (msgId : Option Nat)
  | contentTyped (content : String)
  | dictContent (content : String)
  | plainStr (s : String)
  | other (repr : String)
deriving DecidableEq, Repr

/-- Normalizes a raw completion reply into a canonical assistant Message,
following mcp_chatbot_node.py lines 81-90: an AIMessage is kept as is;
every other shape is wrapped as AIMessage(content=...), which drops any
tool-call payload. -/
def normalize_reply : RawReply → Message
  | RawReply.aiMsg c tc i => { role := Role.assistant, content := c, toolCalls := tc, msgId := i }
  | RawReply.contentTyped c => mkAIMessage c
  | RawReply.dictContent c => mkAIMessage c
  | RawReply.plainStr s => mkAIMessage s
  | RawReply.other r => mkAIMessage r

/-- Tool-result messages appended after an assistant message with tool
calls (mcp_chatbot_node.py lines 144-148): the tool node, when present,
is invoked on the running conversation and its messages are appended;
when no tools are configured (self.tool_node is None) nothing is
appended. -/
def tool_results (toolNode : Option (List Message → List Message))
    (msgs : List Message) : List Message :=
  match toolNode with
  | some f => f msgs
  | none => []

/-- Tool-call resolution loop of MCPChatbotNode.process
(mcp_chatbot_node.py lines 75-157), with the remaining iteration budget
as fuel. Each iteration invokes the completion provider on the running
message list and normalizes the reply; a reply without tool calls is
returned at once; otherwise the reply and its tool results are appended
and the loop continues. When the budget is exhausted the last reply
produced is returned. The second component counts completion provider
invocations. -/
def tool_loop_go (llm : List Message → RawReply)
    (toolNode : Option (List Message → List Message)) :
    Nat → List Message → Message → Message × Nat
  | 0, _, last => (last, 0)
  | fuel + 1, msgs, _ =>
      let r := normalize_reply (llm msgs)
      if r.toolCalls.isEmpty then
        (r, 1)
      else
        let msgs3 := msgs ++ [r] ++ tool_results toolNode (msgs ++ [r])
        let rec2 := tool_loop_go llm toolNode fuel msgs3 r
        (rec2.1, rec2.2 + 1)

/-- Default iteration ceiling of the tool-call loop
(max_tool_iterations = 10 in mcp_chatbot_node.py line 72). -/
def max_tool_iterations : Nat := 10

/-- Runs the tool-call resolution loop from its initial state with the
default iteration ceiling. The initial carried reply is arbitrary; it is
never returned when the ceiling is positive. -/
def tool_loop (llm : List Message → RawReply)
    (toolNode : Option (List Message → List Message))
    (msgs : List Message) : Message × Nat :=
  tool_loop_go llm toolNode max_tool_iterations msgs (mkAIMessage "")

/-- Message list seen by the loop after the optional system prompt
injection of MCPChatbotNode.process lines 62-69: when tools are bound and
no system message is present, the scout system prompt is prepended to the
copied message list. -/
def with_system_prompt (hasTools : Bool) (systemPrompt : String)
    (msgs : List Message) : List Message :=
  if hasTools && !(msgs.any (fun m => m.role = Role.system)) then
    mkSystemMessage systemPrompt :: msgs
  else
    msgs

/-- Final assistant message returned by MCPChatbotNode.process for one
turn: the node copies the state's messages, optionally injects the system
prompt, runs the tool-call loop, and returns a state delta containing
exactly the final response (lines 154 and 157 both return
a singleton messages list). -/
def mcp_chatbot_response (llm : List Message → RawReply)
    (toolNode : Option (List Message → List Message))
    (hasTools : Bool) (systemPrompt : String)
    (stateMsgs : List Message) : Message :=
  (tool_loop llm toolNode (with_system_prompt hasTools systemPrompt stateMsgs)).1

/-- One turn of the orchestration core over conversation C: the chatbot
node's process runs over a copy of C and its singleton delta is merged
back into C through the add_messages reducer. -/
def run_turn (llm : List Message → RawReply)
    (toolNode : Option (List Message → List Message))
    (hasTools : Bool) (systemPrompt : String)
    (C : List Message) : List Message :=
  add_messages C [mcp_chatbot_response llm toolNode hasTools systemPrompt C]

/-- Retrieved document as returned by the semantic retriever
(rag_integration_node.py): document text, source metadata, and an
optional cosine distance (result.get with a distance key that may be
absent). Distances are modelled as exact rationals. -/
structure RagResult where
  document : String
  sourceName : Option String := none
  sourceUrl : Option String := none
  distance : Option ℚ := none
deriving DecidableEq, Repr

/-- Retrieval cache of RAGIntegrationNode, a string-keyed dictionary
holding filtered document lists (self.retrieval_cache). Modelled as an
association list; a fresh binding is consed in front, matching dict
overwrite semantics under front-first lookup. -/
def RetrievalCache : Type := List (String × List RagResult)

/-- Looks a key up in the retrieval cache (dict membership and access in
retrieve_medical_context lines 120-122). -/
def cache_get (cache : RetrievalCache) (key : String) : Option (List RagResult) :=
  match cache with
  | [] => none
  | (k, v) :: rest => if k = key then some v else cache_get rest key

/-- Cache key for a query: the f-string key f"{query}_{n_results}" of
retrieve_medical_context line 119. -/
def cache_key (query : String) (nResults : Nat) : String :=
  query ++ "_" ++ toString nResults

/-- Default similarity threshold of retrieve_medical_context
(similarity_threshold = 0.15). -/
def similarity_threshold : ℚ := 15 / 100

/-- Filters retrieved results by similarity threshold, following
retrieve_medical_context lines 135-144: a result is kept exactly when it
carries a distance and the derived similarity 1 - distance reaches the
threshold; order is preserved. -/
def filter_by_similarity (threshold : ℚ) (results : List RagResult) :
    List RagResult :=
  results.filter (fun r =>
    match r.distance with
    | some d => decide (1 - d ≥ threshold)
    | none => false)

/-- Retrieval with caching, following
RAGIntegrationNode.retrieve_medical_context (lines 111-154). The
retriever parameter is the backing store query
(rag_crawler.query_medical_knowledge); ready models the ensure_ready
check, which returns empty results without caching when false. On a
cache hit the cached list is returned and the retriever is not invoked;
on a miss the retriever is invoked once, an empty raw result list is
returned uncached, and otherwise the threshold-filtered list is returned
and written to the cache. The third component counts retriever
invocations. -/
def retrieve_medical_context (retriever : String → Nat → List RagResult)
    (ready : Bool) (cache : RetrievalCache) (query : String) (nResults : Nat)
    (threshold : ℚ) : List RagResult × RetrievalCache × Nat :=
  if !ready then
    ([], cache, 0)
  else
    match cache_get cache (cache_key query nResults) with
    | some cached => (cached, cache, 0)
    | none =>
        let results := retriever query nResults
        if results.isEmpty then
          ([], cache, 1)
        else
          let filtered := filter_by_similarity threshold results
          (filtered, (cache_key query nResults, filtered) :: cache, 1)

/-- Prints a natural number as two decimal digits (zero padded). -/
def pad_two (k : Nat) : String :=
  if k < 10 then "0" ++ toString k else toString k

/-- Renders a rational as a percentage with two decimal places, the shape
of Python's format f"{x:.2%}". Rounding is round-half-up on the exact
rational, a deterministic stand-in for the float formatting of the
source; no verified claim depends on the digits themselves. -/
def format_percent (q : ℚ) : String :=
  let n : Int := round (q * 10000)
  let sign := if n < 0 then "-" else ""
  let m := n.natAbs
  sign ++ toString (m / 100) ++ "." ++ pad_two (m % 100) ++ "%"

/-- Line of 80 equality signs (the "=" * 80 separator of
format_rag_context). -/
def eq_line : String := String.mk (List.replicate 80 '=')

/-- Line of 80 dashes (the "-" * 80 separator of format_rag_context). -/
def dash_line : String := String.mk (List.replicate 80 '-')

/-- Content preview of one document: the first 500 characters when the
document is longer than 500 characters, the document itself otherwise
(format_rag_context line 195). -/
def doc_preview (document : String) : String :=
  if document.length > 500 then document.take 500 else document

/-- Context lines contributed by one retrieved result, following
format_rag_context lines 180-197: a result header with the 1-based index
and similarity, the source name (defaulting to "Unknown Source"), the
URL (defaulting to "N/A"), the content preview followed by an
unconditional ellipsis marker, and a dash separator. The similarity is
derived from the distance with default 1 (result.get of line 185). -/
def rag_doc_parts (i : Nat) (r : RagResult) : List String :=
  ["\n[Result " ++ toString i ++ "] - Similarity: " ++
      format_percent (1 - r.distance.getD 1),
   "Source: " ++ r.sourceName.getD "Unknown Source",
   "URL: " ++ r.sourceUrl.getD "N/A",
   "Content:\n" ++ doc_preview r.document ++ "...",
   dash_line]

/-- Full context_parts list of format_rag_context: a fixed header, the
equality-sign separator, then the per-result lines with 1-based
enumeration. -/
def rag_context_parts (results : List RagResult) : List String :=
  "\n📚 MEDICAL KNOWLEDGE BASE CONTEXT (Retrieved via Semantic Search):\n" ::
    eq_line ::
      ((results.enumFrom 1).map (fun p => rag_doc_parts p.1 p.2)).flatten

/-- Rendered context block of RAGIntegrationNode.format_rag_context
(lines 162-201): the empty string for an empty result list, otherwise the
newline join of the context parts. -/
def format_rag_context (results : List RagResult) : String :=
  if results.isEmpty then ""
  else String.intercalate "\n" (rag_context_parts results)

/-- Truthiness of a Python string: nonempty. -/
def py_truthy (s : String) : Bool := s ≠ ""

/-- Python str.capitalize: the first character uppercased, the rest
lowercased (ASCII suffices for the mood labels handled here). -/
def py_capitalize (s : String) : String :=
  match s.toList with
  | [] => ""
  | c :: rest => String.mk (c.toUpper :: rest.map Char.toLower)

/-- Python str.lower over the characters of a string (ASCII suffices for
the mood labels handled here). -/
def py_lower (s : String) : String :=
  String.mk (s.toList.map Char.toLower)

/-- First whitespace-separated token of a stripped string, or the empty
string when there is none: mood_text.split()[0] if mood_text.split()
else "" (mood_detection_node.py line 147 over the stripped reply). -/
def first_token (s : String) : String :=
  String.mk ((s.toList.dropWhile Char.isWhitespace).takeWhile
    (fun c => !c.isWhitespace))

/-- Decides whether the first list is a leading segment of the second. -/
def chars_lead (needle hay : List Char) : Bool :=
  match needle, hay with
  | [], _ => true
  | _ :: _, [] => false
  | a :: n, b :: h => a = b && chars_lead n h

/-- Decides whether the first list occurs contiguously inside the second,
the semantics of the Python membership test a in b on strings. -/
def chars_occur (needle : List Char) : List Char → Bool
  | [] => needle.isEmpty
  | c :: rest => chars_lead needle (c :: rest) || chars_occur needle rest

/-- Substring test on strings: needleOccurs hay needle is the Python
expression needle in hay. -/
def str_occurs (hay needle : String) : Bool :=
  chars_occur needle.toList hay.toList

/-- Valid mood labels (mood_detection_node.py line 148 and
health_data_tool.py line 117). -/
def valid_moods : List String := ["Happy", "Sad", "Surprised", "Angry"]

/-- Parses the completion provider's raw textual reply into a detected
mood, following mood_detection_node.py lines 139-156: the reply is
stripped, its first whitespace token is taken, and the valid labels are
scanned in order, the first whose lowercase form occurs as a substring of
the lowercased token being returned; no match yields none. -/
def parse_mood (replyText : String) : Option String :=
  let moodText := first_token replyText
  valid_moods.find? (fun v => str_occurs (py_lower moodText) (py_lower v))

/-- Last n elements of a list (the Python slice l[-n:], which is the
whole list when it is shorter than n). -/
def last_n (n : Nat) (l : List α) : List α :=
  l.drop (l.length - n)

/-- Classification input lines of
MoodDetectionNode.detect_mood_from_conversation lines 99-104: the loop
ranges over the last 3 messages of the conversation (messages[-3:], any
role) and keeps "User: " ++ content for those that are HumanMessages. -/
def recent_user_lines (messages : List Message) : List String :=
  (last_n 3 messages).filterMap (fun m =>
    if m.role = Role.human then some ("User: " ++ m.content) else none)

/-- Conversation context passed to the mood classification prompt: the
newline join of the recent user lines (line 108). -/
def conversation_context (messages : List Message) : String :=
  String.intercalate "\n" (recent_user_lines messages)

/-- Wording of the spec, for comparison with recent_user_lines: the last
at most 3 human-role messages of the whole conversation, newest-last,
regardless of interleaved non-human messages. -/
def spec_last_human_lines (messages : List Message) : List String :=
  last_n 3 ((messages.filter (fun m => m.role = Role.human)).map
    (fun m => "User: " ++ m.content))

/-- Mood detection of MoodDetectionNode.detect_mood_from_conversation:
when no recent user line exists the result is none with no provider
call; otherwise the completion provider is invoked (modelled as a
function from the variable conversation context to the raw textual
reply; the fixed prompt template around the context is absorbed into the
provider parameter) and the reply is parsed. -/
def detect_mood (llm : String → String) (messages : List Message) :
    Option String :=
  if recent_user_lines messages = [] then none
  else parse_mood (llm (conversation_context messages))

/-- Externally owned mood store of health_data_tool.py: the mood field of
personal_data.json, absent when the file has no mood key. -/
structure MoodStore where
  mood : Option String
deriving DecidableEq, Repr

/-- Mood store update of HealthDataManager.update_mood (health_data_tool
lines 115-143): the argument is capitalized; an invalid label leaves the
store unchanged and reports an error, a valid one is stored and reported
as success. -/
def health_update_mood (st : MoodStore) (m : String) : MoodStore × Bool :=
  let mc := py_capitalize m
  if mc ∈ valid_moods then ({ mood := some mc }, true) else (st, false)

/-- Current mood as read by MoodDetectionNode.get_current_mood through
the health_get_mood tool when the read succeeds: the tool serializes
data.get("mood", "") and the node returns
result_dict.get("mood", "").capitalize() (lines 71-78). A failed read
(missing tool, raised error, unparseable payload) yields none and is
modelled by the readOk flag at the call site. -/
def node_current_mood (st : MoodStore) : String :=
  py_capitalize (st.mood.getD "")

/-- Write decision of MoodDetectionNode.process lines 256-263 given the
current mood the node read and the detected mood: with no detection
nothing happens; with a detection the update call is skipped exactly
when a truthy current mood was read that equals the detected mood
case-insensitively, and otherwise health_update_mood is invoked with the
detected mood. The second component counts update capability calls. -/
def mood_decision (currentMood : Option String) (detectedMood : Option String)
    (st : MoodStore) : MoodStore × Nat :=
  match detectedMood with
  | none => (st, 0)
  | some d =>
      match currentMood with
      | some c =>
          if py_truthy c && py_lower d = py_lower c then (st, 0)
          else ((health_update_mood st d).1, 1)
      | none => ((health_update_mood st d).1, 1)

/-- One run of MoodDetectionNode.process (lines 233-279) against a mood
store: an empty message list returns at once; otherwise the current mood
is read (none when the read fails, the capitalized store field
otherwise), a mood is detected from the conversation, and the write
decision is applied. The second component counts mood-update capability
calls. -/
def mood_node_process (llm : String → String) (messages : List Message)
    (readOk : Bool) (st : MoodStore) : MoodStore × Nat :=
  if messages = [] then (st, 0)
  else
    let current := if readOk then some (node_current_mood st) else none
    mood_decision current (detect_mood llm messages) st

/-- Topology wiring produced by the graph build functions: the basic
graph wires a single chatbot node, the MCP graph wires mood detection
followed by the MCP chatbot node
(basic_chatbot_graph.py, mcp_chatbot_graph.py). -/
inductive Topology where
  | basicChatbot
  | mcpChatbot
deriving DecidableEq, Repr

/-- GraphBuilder.setup_graph (graph_builder.py lines 29-44): the two
supported use case identifiers select their topology; any other
identifier raises ValueError immediately. Graph building only wires
nodes; no completion, capability or retriever call is made, which the
model reflects by taking no provider parameters. -/
def setup_graph (usecase : String) : Except String Topology :=
  if usecase = "basic_chatbot" then Except.ok Topology.basicChatbot
  else if usecase = "mcp_chatbot" then Except.ok Topology.mcpChatbot
  else Except.error ("Unsupported use case: " ++ usecase)

/-! Helper lemmas shared by several claims. -/

theorem normalize_reply_role (raw : RawReply) :
    (normalize_reply raw).role = Role.assistant := by
  cases raw <;> rfl

theorem filterMap_if_eq_map_filter {α β : Type} (p : α → Prop) [DecidablePred p]
    (f : α → β) (l : List α) :
    l.filterMap (fun m => if p m then some (f m) else none) =
      (l.filter (fun m => p m)).map f := by
  induction l with
  | nil => rfl
  | cons a t ih =>
      by_cases h : p a <;> simp [List.filterMap_cons, List.filter_cons, h, ih]

/-- C1: for every input conversation C, one turn of the orchestration core
(the chatbot node's process over a copied message list, merged back
through the add_messages reducer) returns a conversation whose first
len(C) messages equal C exactly; no message of C is edited, reordered, or
removed, only new messages are appended. The hypothesis encodes the
reducer's fresh-id guarantee: the response's id, when present, does not
collide with an id already in C. -/
theorem run_turn_append_only (llm : List Message → RawReply)
    (toolNode : Option (List Message → List Message))
    (hasTools : Bool) (sys : String) (C : List Message)
    (hfresh : ∀ m ∈ C, ∀ i,
      (mcp_chatbot_response llm toolNode hasTools sys C).msgId = some i →
        m.msgId ≠ some i) :
    run_turn llm toolNode hasTools sys C =
      C ++ [mcp_chatbot_response llm toolNode hasTools sys C] ∧
    (run_turn llm toolNode hasTools sys C).take C.length = C := by
  have hmain : run_turn llm toolNode hasTools sys C =
      C ++ [mcp_chatbot_response llm toolNode hasTools sys C] := by
    unfold run_turn add_messages
    simp only [List.foldl_cons, List.foldl_nil]
    unfold upsert_message
    cases hid : (mcp_chatbot_response llm toolNode hasTools sys C).msgId with
    | none => rfl
    | some i =>
        have hany : C.any (fun x => x.msgId = some i) = false := by
          rw [List.any_eq_false]
          intro x hx
          simpa using hfresh x hx i hid
        simp [hany]
  refine ⟨hmain, ?_⟩
  rw [hmain]
  exact List.take_left C _

theorem run_turn_append_only_witness :
    run_turn (fun _ => RawReply.plainStr "Hello") none false ""
        [mkHumanMessage "Hi"] = [mkHumanMessage "Hi", mkAIMessage "Hello"] ∧
    (run_turn (fun _ => RawReply.plainStr "Hello") none false ""
        [mkHumanMessage "Hi"]).take 1 = [mkHumanMessage "Hi"] := by
  have h := run_turn_append_only (fun _ => RawReply.plainStr "Hello") none false ""
    [mkHumanMessage "Hi"]
    (by
      intro m hm i hi
      rw [show (mcp_chatbot_response (fun _ => RawReply.plainStr "Hello") none
          false "" [mkHumanMessage "Hi"]).msgId = none from rfl] at hi
      exact Option.noConfusion hi)
  exact ⟨h.1, h.2⟩

theorem tool_loop_go_succ (llm : List Message → RawReply)
    (toolNode : Option (List Message → List Message))
    (fuel : Nat) (msgs : List Message) (last : Message) :
    tool_loop_go llm toolNode (fuel + 1) msgs last =
      if (normalize_reply (llm msgs)).toolCalls.isEmpty then
        (normalize_reply (llm msgs), 1)
      else
        ((tool_loop_go llm toolNode fuel
            (msgs ++ [normalize_reply (llm msgs)] ++
              tool_results toolNode (msgs ++ [normalize_reply (llm msgs)]))
            (normalize_reply (llm msgs))).1,
         (tool_loop_go llm toolNode fuel
            (msgs ++ [normalize_reply (llm msgs)] ++
              tool_results toolNode (msgs ++ [normalize_reply (llm msgs)]))
            (normalize_reply (llm msgs))).2 + 1) := rfl

theorem tool_loop_go_exhausts (llm : List Message → RawReply)
    (toolNode : Option (List Message → List Message))
    (h : ∀ ms, (normalize_reply (llm ms)).toolCalls ≠ []) :
    ∀ fuel, 1 ≤ fuel → ∀ msgs last,
      (tool_loop_go llm toolNode fuel msgs last).2 = fuel ∧
      (tool_loop_go llm toolNode fuel msgs last).1.role = Role.assistant ∧
      (tool_loop_go llm toolNode fuel msgs last).1.toolCalls ≠ [] := by
  intro fuel
  induction fuel with
  | zero => intro hle; exact absurd hle (by decide)
  | succ fuel ih =>
      intro _ msgs last
      have hne : (normalize_reply (llm msgs)).toolCalls ≠ [] := h msgs
      have hempty : (normalize_reply (llm msgs)).toolCalls.isEmpty = false := by
        cases hcase : (normalize_reply (llm msgs)).toolCalls with
        | nil => exact absurd hcase hne
        | cons a t => rfl
      rw [tool_loop_go_succ, hempty]
      simp only [Bool.false_eq_true, if_false]
      cases fuel with
      | zero => exact ⟨rfl, normalize_reply_role (llm msgs), hne⟩
      | succ fuel2 =>
          have hrec := ih (Nat.succ_le_succ (Nat.zero_le fuel2))
            (msgs ++ [normalize_reply (llm msgs)] ++
              tool_results toolNode (msgs ++ [normalize_reply (llm msgs)]))
            (normalize_reply (llm msgs))
          exact ⟨by rw [hrec.1], hrec.2.1, hrec.2.2⟩

/-- C2: for a completion provider that requests at least one tool call on
every reply, the tool-call resolution loop terminates after exactly the
iteration ceiling (default 10) completion-provider calls and returns a
non-null assistant message, namely the last one produced, which still
requests tool calls. -/
theorem tool_loop_bounded (llm : List Message → RawReply)
    (toolNode : Option (List Message → List Message))
    (msgs : List Message)
    (h : ∀ ms, (normalize_reply (llm ms)).toolCalls ≠ []) :
    (tool_loop llm toolNode msgs).2 = max_tool_iterations ∧
    (tool_loop llm toolNode msgs).1.role = Role.assistant ∧
    (tool_loop llm toolNode msgs).1.toolCalls ≠ [] := by
  exact tool_loop_go_exhausts llm toolNode h max_tool_iterations (by decide)
    msgs (mkAIMessage "")

theorem tool_loop_bounded_witness :
    (tool_loop (fun _ => RawReply.aiMsg "" [⟨"multiply", "\x7b\x7d", "call1"⟩] none)
        none [mkHumanMessage "Hi"]).2 = 10 ∧
    (tool_loop (fun _ => RawReply.aiMsg "" [⟨"multiply", "\x7b\x7d", "call1"⟩] none)
        none [mkHumanMessage "Hi"]).1.role = Role.assistant := by
  have h := tool_loop_bounded
    (fun _ => RawReply.aiMsg "" [⟨"multiply", "\x7b\x7d", "call1"⟩] none)
    none [mkHumanMessage "Hi"] (by intro ms; simp [normalize_reply])
  exact ⟨h.1, h.2.1⟩

/-- C3: on a cache miss for (query, n_results) against a backing store
with results, the retrieval augmentation unit calls the retriever once,
filters to exactly the documents with similarity 1 - distance at or above
the 0.15 threshold preserving order (the result list is the order
preserving filter of the raw list), stores the filtered list in the cache
under the key of (query, n_results), and a second call with the same
query and n_results uses the cached list without invoking the retriever
and renders a byte-identical context block. -/
theorem retrieval_cache_determinism (retriever : String → Nat → List RagResult)
    (cache : RetrievalCache) (q : String) (n : Nat)
    (hmiss : cache_get cache (cache_key q n) = none)
    (hraw : retriever q n ≠ []) :
    (retrieve_medical_context retriever true cache q n similarity_threshold).1 =
      filter_by_similarity similarity_threshold (retriever q n) ∧
    (retrieve_medical_context retriever true cache q n similarity_threshold).2.2 = 1 ∧
    cache_get
      (retrieve_medical_context retriever true cache q n similarity_threshold).2.1
      (cache_key q n) =
      some (filter_by_similarity similarity_threshold (retriever q n)) ∧
    (retrieve_medical_context retriever true
      (retrieve_medical_context retriever true cache q n similarity_threshold).2.1
      q n similarity_threshold).1 =
      (retrieve_medical_context retriever true cache q n similarity_threshold).1 ∧
    (retrieve_medical_context retriever true
      (retrieve_medical_context retriever true cache q n similarity_threshold).2.1
      q n similarity_threshold).2.2 = 0 ∧
    format_rag_context
      (retrieve_medical_context retriever true
        (retrieve_medical_context retriever true cache q n similarity_threshold).2.1
        q n similarity_threshold).1 =
      format_rag_context
        (retrieve_medical_context retriever true cache q n similarity_threshold).1 := by
  have hempty : (retriever q n).isEmpty = false := by
    cases hcase : retriever q n with
    | nil => exact absurd hcase hraw
    | cons a t => rfl
  have hfirst : retrieve_medical_context retriever true cache q n
      similarity_threshold =
      (filter_by_similarity similarity_threshold (retriever q n),
       (cache_key q n, filter_by_similarity similarity_threshold (retriever q n))
         :: cache, 1) := by
    simp [retrieve_medical_context, hmiss, hempty]
  have hget : cache_get
      ((cache_key q n, filter_by_similarity similarity_threshold (retriever q n))
        :: cache) (cache_key q n) =
      some (filter_by_similarity similarity_threshold (retriever q n)) := by
    unfold cache_get
    rw [if_pos rfl]
  have hsecond : retrieve_medical_context retriever true
      ((cache_key q n, filter_by_similarity similarity_threshold (retriever q n))
        :: cache) q n similarity_threshold =
      (filter_by_similarity similarity_threshold (retriever q n),
       (cache_key q n, filter_by_similarity similarity_threshold (retriever q n))
         :: cache, 0) := by
    simp [retrieve_medical_context, hget]
  rw [hfirst]
  rw [hsecond]
  exact ⟨rfl, rfl, hget, rfl, rfl, rfl⟩

theorem retrieval_cache_determinism_witness :
    (retrieve_medical_context
      (fun _ _ => [{ document := "d1", distance := some (1/10) },
                   { document := "d2", distance := some (7/10) },
                   { document := "d3", distance := some (9/10) }])
      true [] "flu" 3 similarity_threshold).1 =
      [{ document := "d1", distance := some (1/10) },
       { document := "d2", distance := some (7/10) }] ∧
    (retrieve_medical_context
      (fun _ _ => [{ document := "d1", distance := some (1/10) },
                   { document := "d2", distance := some (7/10) },
                   { document := "d3", distance := some (9/10) }])
      true
      (retrieve_medical_context
        (fun _ _ => [{ document := "d1", distance := some (1/10) },
                     { document := "d2", distance := some (7/10) },
                     { document := "d3", distance := some (9/10) }])
        true [] "flu" 3 similarity_threshold).2.1
      "flu" 3 similarity_threshold).2.2 = 0 := by
  have h := retrieval_cache_determinism
    (fun _ _ => [{ document := "d1", distance := some (1/10) },
                 { document := "d2", distance := some (7/10) },
                 { document := "d3", distance := some (9/10) }])
    [] "flu" 3 (by rfl) (by simp)
  refine ⟨h.1.trans ?_, h.2.2.2.2.1⟩
  norm_num [filter_by_similarity, List.filter, similarity_threshold]

/-- C9: a cache entry for (query, n_results) is written only when the
retriever returns a non-empty raw result list — including the case where
every raw result is then filtered out, which caches an empty list; when
the raw result list is empty, no cache entry is written and a second
identical call invokes the retriever again. -/
theorem cache_write_requires_raw_results
    (retriever : String → Nat → List RagResult) (cache : RetrievalCache)
    (q : String) (n : Nat)
    (hmiss : cache_get cache (cache_key q n) = none) :
    (retriever q n = [] →
      (retrieve_medical_context retriever true cache q n
        similarity_threshold).2.1 = cache ∧
      (retrieve_medical_context retriever true cache q n
        similarity_threshold).2.2 = 1 ∧
      (retrieve_medical_context retriever true
        (retrieve_medical_context retriever true cache q n
          similarity_threshold).2.1 q n similarity_threshold).2.2 = 1) ∧
    (retriever q n ≠ [] →
      cache_get
        (retrieve_medical_context retriever true cache q n
          similarity_threshold).2.1 (cache_key q n) =
        some (filter_by_similarity similarity_threshold (retriever q n))) := by
  constructor
  · intro hempty
    have hfirst : retrieve_medical_context retriever true cache q n
        similarity_threshold = ([], cache, 1) := by
      unfold retrieve_medical_context
      rw [hmiss, hempty]
      rfl
    rw [hfirst]
    exact ⟨rfl, rfl, by
      show (retrieve_medical_context retriever true cache q n
        similarity_threshold).2.2 = 1
      rw [hfirst]⟩
  · intro hraw
    exact (retrieval_cache_determinism retriever cache q n hmiss hraw).2.2.1

theorem cache_write_requires_raw_results_witness :
    (retrieve_medical_context (fun _ _ => []) true [] "flu" 3
      similarity_threshold).2.1 = [] ∧
    (retrieve_medical_context (fun _ _ => []) true [] "flu" 3
      similarity_threshold).2.2 = 1 ∧
    cache_get
      (retrieve_medical_context
        (fun _ _ => [{ document := "far", distance := some (19/20) }])
        true [] "flu" 3 similarity_threshold).2.1 (cache_key "flu" 3) =
      some [] := by
  have h1 := cache_write_requires_raw_results (fun _ _ => []) [] "flu" 3 (by rfl)
  have h2 := cache_write_requires_raw_results
    (fun _ _ => [{ document := "far", distance := some (19/20) }]) [] "flu" 3
    (by rfl)
  refine ⟨(h1.1 rfl).1, (h1.1 rfl).2.1, (h2.2 (by simp)).trans ?_⟩
  norm_num [filter_by_similarity, List.filter, similarity_threshold]

theorem mem_flatten_of_mem_results (s : String) (d : RagResult)
    (hs : ∀ i, s ∈ rag_doc_parts i d) :
    ∀ (results : List RagResult) (n : Nat), d ∈ results →
      s ∈ ((results.enumFrom n).map (fun p => rag_doc_parts p.1 p.2)).flatten := by
  intro results
  induction results with
  | nil => intro n h; cases h
  | cons a t ih =>
      intro n hmem
      rcases List.mem_cons.mp hmem with h | h
      · subst h
        exact List.mem_append_left _ (hs n)
      · exact List.mem_append_right _ (ih (n + 1) h)

/-- Counterexample to C6 as stated: a document of 500 or fewer characters
is not rendered without an ellipsis marker; the content entry rendered
for the three-character document "abc" is "Content:\nabc..." and differs
from the marker-free rendering the claim predicts. -/
theorem rag_ellipsis_counterexample :
    (rag_doc_parts 1 { document := "abc" })[3]? =
      some ("Content:\n" ++ "abc" ++ "...") ∧
    "abc".length ≤ 500 ∧
    ("Content:\n" ++ "abc" ++ "...") ≠ "Content:\n" ++ "abc" := by
  exact ⟨rfl, by decide, by decide⟩

/-- C6 amended: in the rendered context block, each retained document's
content is truncated to a fixed maximum of 500 characters, and the
ellipsis marker is appended to every content preview unconditionally — a
document of 500 or fewer characters is rendered in full but still
followed by the ellipsis marker. -/
theorem content_preview_rendering (results : List RagResult) (d : RagResult)
    (hmem : d ∈ results) :
    (d.document.length ≤ 500 →
      ("Content:\n" ++ d.document ++ "...") ∈ rag_context_parts results) ∧
    (500 < d.document.length →
      ("Content:\n" ++ d.document.take 500 ++ "...") ∈ rag_context_parts results) := by
  constructor
  · intro hlen
    have hprev : doc_preview d.document = d.document := by
      unfold doc_preview
      rw [if_neg (by omega)]
    have hs : ∀ i, ("Content:\n" ++ d.document ++ "...") ∈ rag_doc_parts i d := by
      intro i
      unfold rag_doc_parts
      rw [hprev]
      exact List.mem_cons_of_mem _ (List.mem_cons_of_mem _
        (List.mem_cons_of_mem _ (List.mem_cons_self _ _)))
    exact List.mem_cons_of_mem _ (List.mem_cons_of_mem _
      (mem_flatten_of_mem_results _ d hs results 1 hmem))
  · intro hlen
    have hprev : doc_preview d.document = d.document.take 500 := by
      unfold doc_preview
      rw [if_pos (by omega)]
    have hs : ∀ i,
        ("Content:\n" ++ d.document.take 500 ++ "...") ∈ rag_doc_parts i d := by
      intro i
      unfold rag_doc_parts
      rw [hprev]
      exact List.mem_cons_of_mem _ (List.mem_cons_of_mem _
        (List.mem_cons_of_mem _ (List.mem_cons_self _ _)))
    exact List.mem_cons_of_mem _ (List.mem_cons_of_mem _
      (mem_flatten_of_mem_results _ d hs results 1 hmem))

theorem content_preview_rendering_witness :
    ("Content:\n" ++ "abc" ++ "...") ∈
      rag_context_parts [{ document := "abc" }] := by
  have h := content_preview_rendering [{ document := "abc" }]
    { document := "abc" } (List.mem_singleton.mpr rfl)
  exact h.1 (by decide)

/-- Counterexample to C4 as stated: in the conversation
[human "hi", ai, ai, ai] the message "hi" is the most recent human-role
message, yet it contributes nothing to the classification input, because
the code windows the last 3 messages of any role before filtering for
human messages; the spec-worded collection would keep it, and no mood
inference happens at all even with a provider that would answer Happy. -/
theorem mood_window_counterexample :
    recent_user_lines
      [mkHumanMessage "hi", mkAIMessage "a", mkAIMessage "b", mkAIMessage "c"]
      = [] ∧
    spec_last_human_lines
      [mkHumanMessage "hi", mkAIMessage "a", mkAIMessage "b", mkAIMessage "c"]
      = ["User: hi"] ∧
    detect_mood (fun _ => "Happy")
      [mkHumanMessage "hi", mkAIMessage "a", mkAIMessage "b", mkAIMessage "c"]
      = none := by
  exact ⟨rfl, rfl, rfl⟩

/-- C4 amended: the mood inference unit builds its classification input
from the contents of exactly the human-role messages among the last 3
messages of the conversation (of any role), newest-last, joined as
lines; a human-role message older than the final 3 messages contributes
nothing, and when no human-role message lies among the final 3 the input
is empty. -/
theorem conversation_context_window (messages : List Message) :
    conversation_context messages =
      String.intercalate "\n" (((last_n 3 messages).filter
        (fun m => m.role = Role.human)).map (fun m => "User: " ++ m.content)) ∧
    ((∀ m ∈ last_n 3 messages, m.role ≠ Role.human) →
      recent_user_lines messages = []) := by
  have hchar : recent_user_lines messages =
      ((last_n 3 messages).filter (fun m => m.role = Role.human)).map
        (fun m => "User: " ++ m.content) := by
    unfold recent_user_lines
    exact filterMap_if_eq_map_filter _ _ _
  constructor
  · unfold conversation_context
    rw [hchar]
  · intro hall
    rw [hchar]
    have hnil : (last_n 3 messages).filter (fun m => m.role = Role.human) = [] := by
      rw [List.filter_eq_nil_iff]
      intro m hm
      simpa using hall m hm
    rw [hnil]
    rfl

theorem conversation_context_window_witness :
    recent_user_lines [mkAIMessage "x", mkAIMessage "y"] = [] := by
  exact (conversation_context_window [mkAIMessage "x", mkAIMessage "y"]).2
    (by decide)

/-- Counterexample to C5 as stated: the reply "Unhappy" has a first token
that is not (case-insensitively) one of the four valid labels, yet the
unit detects Happy, because the match is substring containment on the
lowercased token rather than equality. -/
theorem mood_token_counterexample :
    parse_mood "Unhappy" = some "Happy" ∧
    first_token "Unhappy" = "Unhappy" ∧
    (valid_moods.map py_lower).contains (py_lower "Unhappy") = false := by
  exact ⟨by decide, by decide, by decide⟩

/-- C5 amended: the mood inference unit parses the first
whitespace-separated token of the raw reply and detects the first label
in the order Happy, Sad, Surprised, Angry whose lowercase form occurs as
a substring of the lowercased token; for every reply whose first token
does not contain any of the four labels case-insensitively as a
substring (including the reply "None"), no mood is detected. -/
theorem parse_mood_requires_substring (reply : String)
    (h : ∀ v ∈ valid_moods,
      str_occurs (py_lower (first_token reply)) (py_lower v) = false) :
    parse_mood reply = none := by
  unfold parse_mood
  rw [List.find?_eq_none]
  intro v hv
  simp [h v hv]

theorem parse_mood_requires_substring_witness : parse_mood "None" = none :=
  parse_mood_requires_substring "None" (by decide)

theorem parse_mood_mem {t d : String} (h : parse_mood t = some d) :
    d ∈ valid_moods := by
  unfold parse_mood at h
  exact List.mem_of_find?_eq_some h

theorem detect_mood_mem {llm : String → String} {msgs : List Message}
    {d : String} (h : detect_mood llm msgs = some d) : d ∈ valid_moods := by
  unfold detect_mood at h
  split at h
  · exact Option.noConfusion h
  · exact parse_mood_mem h

theorem valid_mood_facts {d : String} (h : d ∈ valid_moods) :
    py_capitalize d = d ∧ py_truthy d = true := by
  fin_cases h <;> exact ⟨by decide, by decide⟩

theorem health_update_mood_valid {d : String} (h : d ∈ valid_moods)
    (st : MoodStore) : health_update_mood st d = ({ mood := some d }, true) := by
  unfold health_update_mood
  rw [(valid_mood_facts h).1, if_pos h]

theorem bool_and_false_of_not_and {a : Bool} {p : Prop} [Decidable p]
    (h : ¬(a = true ∧ p)) : (a && decide p) = false := by
  cases hb : (a && decide p) with
  | true =>
      have hand := (Bool.and_eq_true _ _).mp hb
      exact absurd ⟨hand.1, of_decide_eq_true hand.2⟩ h
  | false => rfl

theorem mood_decision_skip (st : MoodStore) (c d : String)
    (h1 : py_truthy c = true) (h2 : py_lower d = py_lower c) :
    mood_decision (some c) (some d) st = (st, 0) := by
  simp [mood_decision, h1, h2]

theorem mood_decision_write (st : MoodStore) (c d : String)
    (hcond : ¬(py_truthy c = true ∧ py_lower d = py_lower c)) :
    mood_decision (some c) (some d) st = ((health_update_mood st d).1, 1) := by
  simp only [mood_decision, bool_and_false_of_not_and hcond,
    Bool.false_eq_true, if_false]

theorem mood_node_process_skips_on_same (llm : String → String)
    (msgs : List Message) (hmsg : ¬ msgs = []) (d : String)
    (hdet : detect_mood llm msgs = some d) (hd : d ∈ valid_moods) :
    mood_node_process llm msgs true { mood := some d } =
      ({ mood := some d }, 0) := by
  unfold mood_node_process
  rw [if_neg hmsg, hdet]
  have hcur : node_current_mood { mood := some d } = d := by
    unfold node_current_mood
    exact (valid_mood_facts hd).1
  simp only [if_pos rfl, hcur]
  exact mood_decision_skip _ d d (valid_mood_facts hd).2 rfl

/-- C7: if a mood is detected and it equals the current mood
case-insensitively, the mood inference unit issues no mood-update
capability call; consequently, running the unit twice in succession on
unchanged conversation input (with the current-mood read succeeding)
issues at most one mood-update capability call in total. -/
theorem mood_write_idempotent (llm : String → String)
    (messages : List Message) (st : MoodStore) :
    (∀ (st2 : MoodStore) (c d : String), py_truthy c = true →
      py_lower d = py_lower c →
      (mood_decision (some c) (some d) st2).2 = 0) ∧
    (mood_node_process llm messages true st).2 +
      (mood_node_process llm messages true
        (mood_node_process llm messages true st).1).2 ≤ 1 := by
  constructor
  · intro st2 c d h1 h2
    rw [mood_decision_skip st2 c d h1 h2]
  · by_cases hmsg : messages = []
    · simp [mood_node_process, hmsg]
    · cases hdet : detect_mood llm messages with
      | none =>
          have hrun : mood_node_process llm messages true st = (st, 0) := by
            unfold mood_node_process
            rw [if_neg hmsg, hdet]
            rfl
          rw [hrun]
          show 0 + (mood_node_process llm messages true st).2 ≤ 1
          rw [hrun]
          exact Nat.zero_le 1
      | some d =>
          have hd : d ∈ valid_moods := detect_mood_mem hdet
          have hfirst : mood_node_process llm messages true st =
              mood_decision (some (node_current_mood st)) (some d) st := by
            unfold mood_node_process
            rw [if_neg hmsg, hdet]
            rfl
          by_cases hcond : py_truthy (node_current_mood st) = true ∧
              py_lower d = py_lower (node_current_mood st)
          · have hrun : mood_node_process llm messages true st = (st, 0) := by
              rw [hfirst]
              exact mood_decision_skip st _ d hcond.1 hcond.2
            rw [hrun]
            show 0 + (mood_node_process llm messages true st).2 ≤ 1
            rw [hrun]
            exact Nat.zero_le 1
          · have hrun : mood_node_process llm messages true st =
                ({ mood := some d }, 1) := by
              rw [hfirst, mood_decision_write st _ d hcond,
                health_update_mood_valid hd st]
            rw [hrun]
            show 1 + (mood_node_process llm messages true { mood := some d }).2 ≤ 1
            rw [mood_node_process_skips_on_same llm messages hmsg d hdet hd]
            exact Nat.le_refl 1

theorem mood_write_idempotent_witness :
    (mood_decision (some "Happy") (some "Happy") { mood := some "Happy" }).2
      = 0 ∧
    (mood_node_process (fun _ => "Happy") [mkHumanMessage "I am happy"] true
        { mood := none }).2 +
      (mood_node_process (fun _ => "Happy") [mkHumanMessage "I am happy"] true
        (mood_node_process (fun _ => "Happy") [mkHumanMessage "I am happy"] true
          { mood := none }).1).2 ≤ 1 := by
  have h := mood_write_idempotent (fun _ => "Happy")
    [mkHumanMessage "I am happy"] { mood := none }
  exact ⟨h.1 { mood := some "Happy" } "Happy" "Happy" (by decide) rfl, h.2⟩

/-- C10: when the current-mood read fails (yields no current mood) or the
store holds no mood, any detected mood triggers a mood-update capability
call; the skip branch is taken only when a current mood was successfully
read, is truthy, and equals the detected mood case-insensitively. -/
theorem mood_write_on_unknown_current (llm : String → String)
    (msgs : List Message) (st : MoodStore) (d : String) :
    (msgs ≠ [] → detect_mood llm msgs = some d →
      (mood_node_process llm msgs false st).2 = 1) ∧
    (msgs ≠ [] → detect_mood llm msgs = some d → st.mood = none →
      (mood_node_process llm msgs true st).2 = 1) ∧
    (∀ (cur : Option String) (st2 : MoodStore),
      (mood_decision cur (some d) st2).2 = 0 →
      ∃ c, cur = some c ∧ py_truthy c = true ∧ py_lower d = py_lower c) := by
  refine ⟨?_, ?_, ?_⟩
  · intro hmsg hdet
    unfold mood_node_process
    rw [if_neg hmsg, hdet]
    rfl
  · intro hmsg hdet hstore
    have hcur : node_current_mood st = "" := by
      unfold node_current_mood
      rw [hstore]
      rfl
    have hcond : ¬(py_truthy (node_current_mood st) = true ∧
        py_lower d = py_lower (node_current_mood st)) := by
      rw [hcur]
      intro hc
      exact absurd hc.1 (by decide)
    unfold mood_node_process
    rw [if_neg hmsg, hdet]
    show (mood_decision (some (node_current_mood st)) (some d) st).2 = 1
    rw [mood_decision_write st _ d hcond]
  · intro cur st2 h
    cases cur with
    | none => exact absurd h (by simp [mood_decision])
    | some c =>
        by_cases hcond : py_truthy c = true ∧ py_lower d = py_lower c
        · exact ⟨c, rfl, hcond.1, hcond.2⟩
        · rw [mood_decision_write st2 c d hcond] at h
          exact absurd h (by simp)

theorem mood_write_on_unknown_current_witness :
    (mood_node_process (fun _ => "Happy") [mkHumanMessage "I am happy"] false
      { mood := some "Happy" }).2 = 1 ∧
    (mood_node_process (fun _ => "Happy") [mkHumanMessage "I am happy"] true
      { mood := none }).2 = 1 := by
  have h := mood_write_on_unknown_current (fun _ => "Happy")
    [mkHumanMessage "I am happy"] { mood := some "Happy" } "Happy"
  have h2 := mood_write_on_unknown_current (fun _ => "Happy")
    [mkHumanMessage "I am happy"] { mood := none } "Happy"
  exact ⟨h.1 (by decide) (by decide), h2.2.1 (by decide) (by decide) rfl⟩

/-- C8: for every topology identifier outside the supported closed set
(basic_chatbot, mcp_chatbot), the router's setup raises a configuration
error (ValueError) naming the identifier and never yields a topology; it
is modelled without any provider parameter because graph building makes
no completion, capability, or retriever call. -/
theorem setup_graph_rejects_unknown (usecase : String)
    (h1 : usecase ≠ "basic_chatbot") (h2 : usecase ≠ "mcp_chatbot") :
    setup_graph usecase =
      Except.error ("Unsupported use case: " ++ usecase) ∧
    ∀ t, setup_graph usecase ≠ Except.ok t := by
  have hmain : setup_graph usecase =
      Except.error ("Unsupported use case: " ++ usecase) := by
    unfold setup_graph
    rw [if_neg h1, if_neg h2]
  refine ⟨hmain, ?_⟩
  intro t h
  rw [hmain] at h
  exact Except.noConfusion h

theorem setup_graph_rejects_unknown_witness :
    setup_graph "doctor_chatbot" =
      Except.error ("Unsupported use case: " ++ "doctor_chatbot") := by
  exact (setup_graph_rejects_unknown "doctor_chatbot" (by decide) (by decide)).1
